import Mathlib

set_option maxRecDepth 40000

/-!
Verification of the rolevatev7 session orchestration and persistence layer
(`room-LangGraph/v3`): identity resolution from room names, checkpointed
conversation state, transcript sequencing, recording lifecycle, and the
per-turn system-context assembly.  Python string and dict operations are
embedded over `List Char` and explicit optional-field structures.
-/

namespace Rolevate

/-- A Python string, as a list of characters. -/
abbrev Chars := List Char

/-- Python `s.split(sep)` for a one-character separator, on character lists.
`splitOnChar sep []` is `[[]]`, matching Python `"".split("-") == [""]`. -/
def splitOnChar (sep : Char) : Chars → List Chars
  | [] => [[]]
  | c :: rest =>
    let r := splitOnChar sep rest
    if c = sep then [] :: r
    else
      match r with
      | [] => [[c]]
      | h :: t => (c :: h) :: t

/-- Python `"-".join(parts)` on character lists. -/
def joinHyphen : List Chars → Chars
  | [] => []
  | [g] => g
  | g :: gs => g ++ '-' :: joinHyphen gs

/-- The `interview-` room-name marker (10 characters), as tested by
`room_id.startswith("interview-")` and stripped by `room_name[10:]`. -/
def interviewMarker : Chars := ['i', 'n', 't', 'e', 'r', 'v', 'i', 'e', 'w', '-']

/-- From `agent.py` entrypoint (lines 43-49): extract an application id from the
room name, or `none` when the shape test fails. -/
def extractApplicationId (room : Chars) : Option Chars :=
  if interviewMarker.isPrefixOf room then
    let parts := splitOnChar '-' (room.drop 10)
    if 5 ≤ parts.length then some (joinHyphen (parts.take 5)) else none
  else none

/-- From `graphql_client.py`, `extract_interview_id_from_room_name`: same shape
test, but falling back to the full room name on non-matching names. -/
def extract_interview_id_from_room_name (room : Chars) : Chars :=
  if interviewMarker.isPrefixOf room then
    let parts := splitOnChar '-' (room.drop 10)
    if 5 ≤ parts.length then joinHyphen (parts.take 5) else room
  else room

/-- Hexadecimal digit: the character class of a UUID group. -/
def isHexDigit (c : Char) : Bool :=
  c.isDigit || (('a' ≤ c) && (c ≤ 'f')) || (('A' ≤ c) && (c ≤ 'F'))

/-- A UUID group of width `n`: exactly `n` hexadecimal characters. -/
def IsUuidGroup (g : Chars) (n : Nat) : Prop :=
  g.length = n ∧ ∀ c ∈ g, isHexDigit c = true

instance instDecidableIsUuidGroup (g : Chars) (n : Nat) :
    Decidable (IsUuidGroup g n) :=
  inferInstanceAs (Decidable (g.length = n ∧ ∀ c ∈ g, isHexDigit c = true))

/-- The room-name convention `interview-{uuid}-{suffix}`, the UUID being five
hyphen-delimited groups in the `8-4-4-4-12` pattern. -/
def MatchesConvention (room : Chars) : Prop :=
  ∃ g1 g2 g3 g4 g5 suffix : Chars,
    IsUuidGroup g1 8 ∧ IsUuidGroup g2 4 ∧ IsUuidGroup g3 4 ∧
    IsUuidGroup g4 4 ∧ IsUuidGroup g5 12 ∧
    room = interviewMarker ++
      (g1 ++ '-' :: (g2 ++ '-' :: (g3 ++ '-' :: (g4 ++ '-' :: (g5 ++ '-' :: suffix)))))

theorem splitOnChar_ne_nil (sep : Char) (l : Chars) : splitOnChar sep l ≠ [] := by
  induction l with
  | nil => simp [splitOnChar]
  | cons c rest ih =>
    simp only [splitOnChar]
    by_cases h : c = sep
    · simp [h]
    · simp only [h, if_false]
      cases hr : splitOnChar sep rest with
      | nil => simp
      | cons a t => simp

theorem splitOnChar_sep_head (sep : Char) (g rest : Chars)
    (hg : ∀ c ∈ g, c ≠ sep) :
    splitOnChar sep (g ++ sep :: rest) = g :: splitOnChar sep rest := by
  induction g with
  | nil => simp [splitOnChar]
  | cons c g' ih =>
    have hc : c ≠ sep := hg c (by simp)
    have ih' := ih (fun x hx => hg x (by simp [hx]))
    simp only [List.cons_append, splitOnChar, hc, if_false, List.append_eq]
    rw [ih']

theorem hex_ne_hyphen {c : Char} (h : isHexDigit c = true) : c ≠ '-' := by
  intro hc
  subst hc
  exact absurd h (by decide)

theorem isPrefixOf_append_self (l rest : Chars) :
    l.isPrefixOf (l ++ rest) = true := by
  induction l with
  | nil => simp [List.isPrefixOf]
  | cons c cs ih => simp [List.isPrefixOf, ih]

theorem interviewMarker_isPrefixOf_append (rest : Chars) :
    interviewMarker.isPrefixOf (interviewMarker ++ rest) = true :=
  isPrefixOf_append_self interviewMarker rest

theorem drop_interviewMarker (rest : Chars) :
    (interviewMarker ++ rest).drop 10 = rest := by
  have h : interviewMarker.length = 10 := by decide
  rw [← h, List.drop_left]

/-- The shape test actually performed by the code: the `interview-` marker
followed by at least five hyphen-delimited groups. -/
def roomShapeAccepts (room : Chars) : Bool :=
  interviewMarker.isPrefixOf room &&
    decide (5 ≤ (splitOnChar '-' (room.drop 10)).length)

theorem extractApplicationId_convention
    (g1 g2 g3 g4 g5 suffix : Chars)
    (h1 : IsUuidGroup g1 8) (h2 : IsUuidGroup g2 4) (h3 : IsUuidGroup g3 4)
    (h4 : IsUuidGroup g4 4) (h5 : IsUuidGroup g5 12) :
    extractApplicationId (interviewMarker ++
      (g1 ++ '-' :: (g2 ++ '-' :: (g3 ++ '-' :: (g4 ++ '-' :: (g5 ++ '-' :: suffix)))))) =
      some (g1 ++ '-' :: (g2 ++ '-' :: (g3 ++ '-' :: (g4 ++ '-' :: g5)))) := by
  have hg1 : ∀ c ∈ g1, c ≠ '-' := fun c hc => hex_ne_hyphen (h1.2 c hc)
  have hg2 : ∀ c ∈ g2, c ≠ '-' := fun c hc => hex_ne_hyphen (h2.2 c hc)
  have hg3 : ∀ c ∈ g3, c ≠ '-' := fun c hc => hex_ne_hyphen (h3.2 c hc)
  have hg4 : ∀ c ∈ g4, c ≠ '-' := fun c hc => hex_ne_hyphen (h4.2 c hc)
  have hg5 : ∀ c ∈ g5, c ≠ '-' := fun c hc => hex_ne_hyphen (h5.2 c hc)
  simp only [extractApplicationId, interviewMarker_isPrefixOf_append,
    drop_interviewMarker, if_true]
  rw [splitOnChar_sep_head _ _ _ hg1, splitOnChar_sep_head _ _ _ hg2,
    splitOnChar_sep_head _ _ _ hg3, splitOnChar_sep_head _ _ _ hg4,
    splitOnChar_sep_head _ _ _ hg5]
  simp [joinHyphen]

theorem extractApplicationId_shape_reject (room : Chars)
    (h : roomShapeAccepts room = false) : extractApplicationId room = none := by
  unfold roomShapeAccepts at h
  unfold extractApplicationId
  rcases Bool.and_eq_false_iff.mp h with h1 | h2
  · simp [h1]
  · by_cases hp : interviewMarker.isPrefixOf room
    · simp only [hp, if_true]
      have : ¬ 5 ≤ (splitOnChar '-' (room.drop 10)).length := by
        simpa using h2
      simp [this]
    · simp [hp]

/-- The variables of the `CreateInterview` GraphQL mutation as assembled by
`graphql_client.py`, `create_interview_with_video`: the applicationId is the
result of the extractor (falling back to the full room name). -/
structure CreateInterviewInput where
  applicationId : Chars
  roomId : Chars
  recordingUrl : String
  interviewType : String
  status : String

/-- From `create_interview_with_video`, lines 186-210: assemble the mutation input. -/
def createInterviewVariables (room_id : Chars) (video_url : String) :
    CreateInterviewInput :=
  { applicationId := extract_interview_id_from_room_name room_id
    roomId := room_id
    recordingUrl := video_url
    interviewType := "VIDEO"
    status := "STARTED" }

/-- Claim C4, amended: for every room name of the convention
`interview-{uuid}-{suffix}` (UUID pattern 8-4-4-4-12), the entrypoint extracts
the five UUID groups as the applicationId; a room name failing the shape test of the code (the `interview-` marker followed by at least five hyphen-delimited
groups) yields `none`; the two spec scenarios hold.  (The original claim
fails: a prefixed room with five non-UUID groups also yields a non-null
id.) -/
theorem C4_resolve_application_id :
    (∀ g1 g2 g3 g4 g5 suffix : Chars,
      IsUuidGroup g1 8 → IsUuidGroup g2 4 → IsUuidGroup g3 4 →
      IsUuidGroup g4 4 → IsUuidGroup g5 12 →
      extractApplicationId (interviewMarker ++
        (g1 ++ '-' :: (g2 ++ '-' :: (g3 ++ '-' :: (g4 ++ '-' :: (g5 ++ '-' :: suffix)))))) =
        some (g1 ++ '-' :: (g2 ++ '-' :: (g3 ++ '-' :: (g4 ++ '-' :: g5))))) ∧
    (∀ room : Chars, roomShapeAccepts room = false →
      extractApplicationId room = none) ∧
    extractApplicationId "interview-11111111-2222-3333-4444-555555555555-7".toList =
      some "11111111-2222-3333-4444-555555555555".toList ∧
    extractApplicationId "not-an-interview-room".toList = none := by
  refine ⟨fun g1 g2 g3 g4 g5 suffix h1 h2 h3 h4 h5 =>
    extractApplicationId_convention g1 g2 g3 g4 g5 suffix h1 h2 h3 h4 h5,
    fun room h => extractApplicationId_shape_reject room h, by decide, by decide⟩

/-- Witness for C4: the amended theorem applied at the concrete spec scenario
room, all hypotheses discharged by evaluation. -/
theorem C4_resolve_application_id_witness :
    extractApplicationId (interviewMarker ++
      ("11111111".toList ++ '-' :: ("2222".toList ++ '-' :: ("3333".toList ++
        '-' :: ("4444".toList ++ '-' :: ("555555555555".toList ++ '-' :: "7".toList)))))) =
      some ("11111111".toList ++ '-' :: ("2222".toList ++ '-' :: ("3333".toList ++
        '-' :: ("4444".toList ++ '-' :: "555555555555".toList)))) ∧
    extractApplicationId "xroom".toList = none :=
  ⟨C4_resolve_application_id.1 _ _ _ _ _ _ (by decide) (by decide) (by decide)
      (by decide) (by decide),
    C4_resolve_application_id.2.1 _ (by decide)⟩

/-- Counterexample to C4 as stated: room `interview-aa-bb-cc-dd-ee` does not
match the `interview-{uuid}-{suffix}` convention (no 8-character hex group
follows the marker), yet the code extracts a non-null applicationId. -/
theorem C4_counterexample :
    ¬ MatchesConvention "interview-aa-bb-cc-dd-ee".toList ∧
    extractApplicationId "interview-aa-bb-cc-dd-ee".toList ≠ none := by
  constructor
  · rintro ⟨g1, g2, g3, g4, g5, suffix, ⟨hl1, hh1⟩, _, _, _, _, heq⟩
    have hdrop : ("interview-aa-bb-cc-dd-ee".toList).drop 10 =
        g1 ++ '-' :: (g2 ++ '-' :: (g3 ++ '-' :: (g4 ++ '-' :: (g5 ++ '-' :: suffix)))) := by
      rw [heq, drop_interviewMarker]
    have hdrop2 : ("interview-aa-bb-cc-dd-ee".toList).drop 10 =
        ['a', 'a', '-', 'b', 'b', '-', 'c', 'c', '-', 'd', 'd', '-', 'e', 'e'] := by
      decide
    have key : g1 ++ '-' :: (g2 ++ '-' :: (g3 ++ '-' :: (g4 ++ '-' :: (g5 ++ '-' :: suffix)))) =
        ['a', 'a', '-', 'b', 'b', '-', 'c', 'c', '-', 'd', 'd', '-', 'e', 'e'] :=
      hdrop.symm.trans hdrop2
    have htake : g1 = List.take 8
        (g1 ++ '-' :: (g2 ++ '-' :: (g3 ++ '-' :: (g4 ++ '-' :: (g5 ++ '-' :: suffix))))) := by
      rw [← hl1]
      exact (List.take_left _ _).symm
    rw [key] at htake
    have hmem : ('-' : Char) ∈ g1 := by
      rw [htake]
      decide
    exact absurd (hh1 '-' hmem) (by decide)
  · decide

/-- Claim C10: when a record is created for a room name failing the room-name
format test of the code, the full room name itself is used as the applicationId
of the CreateInterview call — the extractor falls back to the whole name
rather than failing or passing null. -/
theorem C10_create_uses_full_room_name_fallback :
    (∀ (room : Chars) (url : String), roomShapeAccepts room = false →
      (createInterviewVariables room url).applicationId = room) ∧
    (createInterviewVariables "not-an-interview-room".toList "u").applicationId =
      "not-an-interview-room".toList := by
  constructor
  · intro room url h
    unfold createInterviewVariables extract_interview_id_from_room_name
    unfold roomShapeAccepts at h
    rcases Bool.and_eq_false_iff.mp h with h1 | h2
    · simp [h1]
    · by_cases hp : interviewMarker.isPrefixOf room
      · simp only [hp, if_true]
        have hlen : ¬ 5 ≤ (splitOnChar '-' (room.drop 10)).length := by
          simpa using h2
        simp [hlen]
      · simp [hp]
  · decide

/-- Witness for C10: the theorem applied at a concrete malformed room name. -/
theorem C10_create_uses_full_room_name_fallback_witness :
    (createInterviewVariables "badroom".toList "u").applicationId =
      "badroom".toList :=
  C10_create_uses_full_room_name_fallback.1 _ _ (by decide)

/-- A Python dict entry as delivered by the GraphQL layer: the key may be
absent, present with value `None` (a GraphQL `null`), or present with a
value. -/
inductive JField (α : Type) where
  | absent
  | null
  | val (a : α)
deriving DecidableEq

/-- Python `d.get(k, default)`: the default applies only when the key is
absent; a key present with `None` yields `None` (`none` here). -/
def JField.get {α : Type} (f : JField α) (default : α) : Option α :=
  match f with
  | .absent => some default
  | .null => none
  | .val a => some a

/-- Python `d.get(k)`: absent and `None`-valued keys both yield `None`. -/
def JField.getOpt {α : Type} (f : JField α) : Option α :=
  match f with
  | .absent => none
  | .null => none
  | .val a => some a

/-- The `company` sub-object of the job details. -/
structure Company where
  name : JField String
deriving DecidableEq

/-- The structured `cvAnalysisResults` dict read by `call_llm`. -/
structure CvAnalysisResults where
  experience_summary : JField String
  skills_matched : JField (List String)
  skills_missing : JField (List String)
  strengths : JField (List String)
  concerns : JField (List String)
  recommendation : JField String
deriving DecidableEq

/-- The `cvAnalysisResults` value: either a structured dict or some other
truthy value (the `isinstance(..., dict)` distinction made by the code). -/
inductive CvAnalysisValue where
  | obj (r : CvAnalysisResults)
  | raw (s : String)
deriving DecidableEq

/-- The `job` sub-dict of an application-details dict, restricted to the keys
`call_llm` and `create_initial_session_state` read. -/
structure JobDetails where
  interviewLanguage : JField String
  company : JField Company
  interviewPrompt : JField String
deriving DecidableEq

/-- An application-details dict, restricted to the keys the state machine
reads. -/
structure ApplicationDetails where
  job : JField JobDetails
  cvScore : JField Nat
  cv_score : JField Nat
  cvAnalysisScore : JField Nat
  cvAnalysisResults : JField CvAnalysisValue
  cv_analysis_results : JField CvAnalysisValue
deriving DecidableEq

/-- A LangChain message as stored in the `messages` channel of the state. -/
structure Message where
  role : String
  content : String
deriving DecidableEq

/-- From `state/assistant_state.py`: the LangGraph state schema.  `messages` is an
`Annotated[Sequence[BaseMessage], operator.add]` channel (list
concatenation); every other field is a last-value channel.  Times are
abstracted to naturals. -/
structure AssistantState where
  messages : List Message
  session_id : String
  current_question : Nat
  interview_status : String
  participant_name : Option String
  start_time : Nat
  last_updated : Nat
  questions_asked : List String
  responses_received : List String
  application_details : Option ApplicationDetails
  interview_language : Option String
deriving DecidableEq

/-- A partial state update as returned by a graph node: the `messages` list is
appended, and a scalar channel is overwritten exactly when the delta carries a
value for it. -/
structure StateDelta where
  messages : List Message := []
  session_id : Option String := none
  current_question : Option Nat := none
  interview_status : Option String := none
  participant_name : Option (Option String) := none
  start_time : Option Nat := none
  last_updated : Option Nat := none
  questions_asked : Option (List String) := none
  responses_received : Option (List String) := none
  application_details : Option (Option ApplicationDetails) := none
  interview_language : Option (Option String) := none

/-- The channel merge of the checkpointer for one committed node update:
`operator.add` on `messages`, last-value with carry-forward on every scalar
channel. -/
def commitDelta (s : AssistantState) (d : StateDelta) : AssistantState :=
  { messages := s.messages ++ d.messages
    session_id := d.session_id.getD s.session_id
    current_question := d.current_question.getD s.current_question
    interview_status := d.interview_status.getD s.interview_status
    participant_name := d.participant_name.getD s.participant_name
    start_time := d.start_time.getD s.start_time
    last_updated := d.last_updated.getD s.last_updated
    questions_asked := d.questions_asked.getD s.questions_asked
    responses_received := d.responses_received.getD s.responses_received
    application_details := d.application_details.getD s.application_details
    interview_language := d.interview_language.getD s.interview_language }

/-- From `nodes/assistant_node.py`, `call_llm` lines 100-113: the update returned by the
node appends the one generated message and explicitly copies every scalar
field forward (only `last_updated` takes a new value). -/
def call_llm_delta (s : AssistantState) (generated : Message) (now : Nat) :
    StateDelta :=
  { messages := [generated]
    last_updated := some now
    current_question := some s.current_question
    session_id := some s.session_id
    participant_name := some s.participant_name
    interview_status := some s.interview_status
    start_time := some s.start_time
    questions_asked := some s.questions_asked
    responses_received := some s.responses_received
    application_details := some s.application_details
    interview_language := some s.interview_language }

/-- One generation turn: run `call_llm` on the stored state and commit its
update through the checkpointer merge. -/
def generationTurn (s : AssistantState) (generated : Message) (now : Nat) :
    AssistantState :=
  commitDelta s (call_llm_delta s generated now)

/-- A sequence of committed generation turns. -/
def applyTurns (s : AssistantState) : List (Message × Nat) → AssistantState
  | [] => s
  | t :: ts => applyTurns (generationTurn s t.1 t.2) ts

/-- The initial state of the spec scenario: `turnIndex 0`, `status "active"`, no
messages yet. -/
def scenarioInitialState : AssistantState :=
  { messages := []
    session_id := "session-1"
    current_question := 0
    interview_status := "active"
    participant_name := none
    start_time := 0
    last_updated := 0
    questions_asked := []
    responses_received := []
    application_details := none
    interview_language := some "english" }

theorem applyTurns_messages (ts : List (Message × Nat)) :
    ∀ s : AssistantState, (applyTurns s ts).messages = s.messages ++ ts.map Prod.fst := by
  induction ts with
  | nil =>
    intro s
    simp [applyTurns]
  | cons t ts ih =>
    intro s
    simp [applyTurns, ih, generationTurn, commitDelta, call_llm_delta]

/-- Claim C1: a commit appends exactly the messages of the delta (no loss, no
duplication) and a generation turn preserves every scalar field; over any
sequence of committed turns the message list is the initial list plus exactly
the appended messages; the spec scenario (initial state with `turnIndex 0`,
`status "active"`, one turn appending one assistant message) ends with one
message, status `"active"`, and `turnIndex 0`. -/
theorem C1_commit_appends_and_preserves :
    (∀ (s : AssistantState) (d : StateDelta),
      (commitDelta s d).messages = s.messages ++ d.messages) ∧
    (∀ (s : AssistantState) (m : Message) (now : Nat),
      (generationTurn s m now).messages = s.messages ++ [m] ∧
      (generationTurn s m now).session_id = s.session_id ∧
      (generationTurn s m now).participant_name = s.participant_name ∧
      (generationTurn s m now).interview_status = s.interview_status ∧
      (generationTurn s m now).start_time = s.start_time ∧
      (generationTurn s m now).current_question = s.current_question ∧
      (generationTurn s m now).questions_asked = s.questions_asked ∧
      (generationTurn s m now).responses_received = s.responses_received ∧
      (generationTurn s m now).application_details = s.application_details ∧
      (generationTurn s m now).interview_language = s.interview_language) ∧
    (∀ (s : AssistantState) (ts : List (Message × Nat)),
      (applyTurns s ts).messages = s.messages ++ ts.map Prod.fst ∧
      (applyTurns s ts).messages.length = s.messages.length + ts.length) ∧
    ((generationTurn scenarioInitialState ⟨"assistant", "hello"⟩ 1).messages.length = 1 ∧
      (generationTurn scenarioInitialState ⟨"assistant", "hello"⟩ 1).interview_status =
        "active" ∧
      (generationTurn scenarioInitialState ⟨"assistant", "hello"⟩ 1).current_question = 0) := by
  refine ⟨fun s d => rfl, fun s m now => ⟨rfl, rfl, rfl, rfl, rfl, rfl, rfl, rfl, rfl, rfl⟩,
    fun s ts => ⟨applyTurns_messages ts s, ?_⟩, by decide⟩
  rw [applyTurns_messages ts s]
  simp

/-- Python `str.strip()` on character lists. -/
def stripChars (l : Chars) : Chars :=
  ((l.dropWhile Char.isWhitespace).reverse.dropWhile Char.isWhitespace).reverse

/-- One finalized conversation-item notification as seen by
`handle_conversation_item`.  `downstreamOk` records whether the later
`save_transcript_entry` call would succeed; it must not influence the
counter. -/
structure Utterance where
  role : String
  text : Option Chars
  downstreamOk : Bool
deriving DecidableEq

/-- The early-return guard at the top of `async_handler` (`agent.py` line 158):
proceed only when an interview id is linked and the item has non-blank text. -/
def utteranceAccepted (interviewId : Option Nat) (u : Utterance) : Bool :=
  match interviewId, u.text with
  | some _, some t => decide (t ≠ []) && decide (stripChars t ≠ [])
  | _, _ => false

/-- One handler run of the transcript sequencer (`agent.py` lines 158-169):
if the guard passes, `sequence_counter += 1` and that value is handed to
`save_transcript_entry`.  The increment and the read happen before the first
await point, so on the cooperative event loop each run sees and installs its
own fresh value; a list fold therefore models any interleaving of handler
tasks. -/
def sequencerStep (interviewId : Option Nat) (c : Nat) (u : Utterance) :
    Nat × Option Nat :=
  if utteranceAccepted interviewId u then (c + 1, some (c + 1)) else (c, none)

/-- Run the sequencer over a list of notifications, returning the final
counter and the sequence numbers assigned (in order). -/
def runSequencer (interviewId : Option Nat) (c : Nat) :
    List Utterance → Nat × List Nat
  | [] => (c, [])
  | u :: us =>
    let step := sequencerStep interviewId c u
    let rest := runSequencer interviewId step.1 us
    (rest.1, step.2.toList ++ rest.2)

/-- A copy of a notification with the downstream append outcome replaced. -/
def setDownstream (u : Utterance) (b : Bool) : Utterance :=
  { u with downstreamOk := b }

theorem runSequencer_mem_lower (interviewId : Option Nat)
    (us : List Utterance) :
    ∀ c : Nat, ∀ x ∈ (runSequencer interviewId c us).2, c < x := by
  induction us with
  | nil =>
    intro c x hx
    simp [runSequencer] at hx
  | cons u us ih =>
    intro c x hx
    simp only [runSequencer, sequencerStep] at hx
    by_cases h : utteranceAccepted interviewId u
    · simp only [h, if_true, Option.toList_some, List.cons_append,
        List.nil_append, List.mem_cons] at hx
      rcases hx with hx | hx
      · omega
      · have := ih (c + 1) x hx
        omega
    · simp only [h, if_false, Option.toList_none, List.nil_append] at hx
      exact ih c x hx

theorem runSequencer_pairwise (interviewId : Option Nat)
    (us : List Utterance) :
    ∀ c : Nat, ((runSequencer interviewId c us).2).Pairwise (· < ·) := by
  induction us with
  | nil =>
    intro c
    simp [runSequencer]
  | cons u us ih =>
    intro c
    simp only [runSequencer, sequencerStep]
    by_cases h : utteranceAccepted interviewId u
    · simp only [h, if_true, Option.toList_some, List.cons_append, List.nil_append]
      refine List.pairwise_cons.mpr ⟨?_, ih (c + 1)⟩
      intro x hx
      have := runSequencer_mem_lower interviewId us (c + 1) x hx
      omega
    · simp only [h, if_false, Option.toList_none, List.nil_append]
      exact ih c

theorem runSequencer_counter (interviewId : Option Nat)
    (us : List Utterance) :
    ∀ c : Nat, (runSequencer interviewId c us).1 =
      c + us.countP (utteranceAccepted interviewId) := by
  induction us with
  | nil =>
    intro c
    simp [runSequencer]
  | cons u us ih =>
    intro c
    simp only [runSequencer, sequencerStep, List.countP_cons]
    by_cases h : utteranceAccepted interviewId u
    · simp [h, ih (c + 1)]
      omega
    · simp [h, ih c]

theorem runSequencer_downstream_independent (interviewId : Option Nat)
    (us : List Utterance) (b : Bool) :
    ∀ c : Nat, runSequencer interviewId c (us.map (fun u => setDownstream u b)) =
      runSequencer interviewId c us := by
  induction us with
  | nil =>
    intro c
    simp [runSequencer]
  | cons u us ih =>
    intro c
    have hacc : utteranceAccepted interviewId (setDownstream u b) =
        utteranceAccepted interviewId u := by
      cases interviewId <;> cases ht : u.text <;>
        simp [utteranceAccepted, setDownstream, ht]
    simp only [List.map_cons, runSequencer, sequencerStep, hacc]
    rw [ih]

/-- Claim C5: for any run of finalized notifications under one linked record
id, the assigned sequence numbers are strictly increasing with no duplicates;
the counter advances by exactly one per accepted notification and is
independent of downstream append outcomes (never rolled back, gaps allowed);
fifty accepted notifications get fifty distinct increasing numbers. -/
theorem C5_sequence_numbers_strictly_increasing :
    (∀ (interviewId : Option Nat) (c : Nat) (us : List Utterance),
      ((runSequencer interviewId c us).2).Pairwise (· < ·) ∧
      ((runSequencer interviewId c us).2).Nodup) ∧
    (∀ (interviewId : Option Nat) (c : Nat) (us : List Utterance),
      (runSequencer interviewId c us).1 =
        c + us.countP (utteranceAccepted interviewId)) ∧
    (∀ (interviewId : Option Nat) (c : Nat) (us : List Utterance) (b : Bool),
      runSequencer interviewId c (us.map (fun u => setDownstream u b)) =
        runSequencer interviewId c us) ∧
    (runSequencer (some 1) 0
        (List.replicate 50 ⟨"CANDIDATE", some ['h', 'i'], false⟩)).2 =
      (List.range 50).map (· + 1) := by
  refine ⟨fun i c us => ⟨runSequencer_pairwise i us c, ?_⟩,
    fun i c us => runSequencer_counter i us c,
    fun i c us b => runSequencer_downstream_independent i us b c, by decide⟩
  exact (runSequencer_pairwise i us c).imp fun h => Nat.ne_of_lt h

/-- A session-surface event relevant to transcript logging: either linkage
(an external record id becomes available) or a finalized conversation-item
notification. -/
inductive SessionEvent where
  | link (recordId : Nat)
  | utter (u : Utterance)
deriving DecidableEq

/-- The in-process state the handler closure reads: the linked interview id,
the sequence counter, and the attempted `appendTranscript` calls (pairs of
record id and sequence number).  There is no buffer of pending utterances. -/
structure TranscriptTraceState where
  interviewId : Option Nat
  counter : Nat
  attempts : List (Nat × Nat)
deriving DecidableEq

/-- One event step: linkage installs the record id; a notification is handled
as in `handle_conversation_item` — dropped outright when no id is linked,
otherwise the counter is bumped and an append for `(id, counter)` is
attempted. -/
def transcriptStep (s : TranscriptTraceState) : SessionEvent → TranscriptTraceState
  | .link r => { s with interviewId := some r }
  | .utter u =>
    match s.interviewId with
    | none => s
    | some r =>
      if utteranceAccepted (some r) u then
        { s with counter := s.counter + 1
                 attempts := s.attempts ++ [(r, s.counter + 1)] }
      else s

/-- Run a whole event trace. -/
def runTranscript (s : TranscriptTraceState) : List SessionEvent → TranscriptTraceState
  | [] => s
  | e :: es => runTranscript (transcriptStep s e) es

theorem transcriptStep_unlinked (s : TranscriptTraceState) (u : Utterance)
    (h : s.interviewId = none) : transcriptStep s (.utter u) = s := by
  simp [transcriptStep, h]

theorem runTranscript_unlinked (us : List Utterance) :
    ∀ s : TranscriptTraceState, s.interviewId = none →
      runTranscript s (us.map SessionEvent.utter) = s := by
  induction us with
  | nil =>
    intro s _
    rfl
  | cons u us ih =>
    intro s h
    simp only [List.map_cons, runTranscript, transcriptStep_unlinked s u h]
    exact ih s h

theorem transcriptStep_keeps_id (s : TranscriptTraceState) (u : Utterance) :
    (transcriptStep s (.utter u)).interviewId = s.interviewId := by
  cases h : s.interviewId with
  | none => simp [transcriptStep, h]
  | some r =>
    by_cases hu : utteranceAccepted (some r) u <;> simp [transcriptStep, h, hu]

theorem runTranscript_linked_attempts (us : List Utterance) :
    ∀ (s : TranscriptTraceState) (r : Nat), s.interviewId = some r →
      (runTranscript s (us.map SessionEvent.utter)).attempts.length =
        s.attempts.length + us.countP (utteranceAccepted (some r)) := by
  induction us with
  | nil =>
    intro s r _
    simp [runTranscript]
  | cons u us ih =>
    intro s r h
    simp only [List.map_cons, runTranscript, List.countP_cons]
    by_cases hu : utteranceAccepted (some r) u
    · have hstep : transcriptStep s (.utter u) =
          { s with counter := s.counter + 1
                   attempts := s.attempts ++ [(r, s.counter + 1)] } := by
        simp [transcriptStep, h, hu]
      rw [hstep, ih _ r (by simp [h])]
      simp [hu]
      omega
    · have hstep : transcriptStep s (.utter u) = s := by
        simp [transcriptStep, h, hu]
      rw [hstep, ih _ r h]
      simp [hu]

/-- Claim C6: utterance notifications arriving while no external record id is
linked are dropped — the handler state is left exactly as it was, so nothing
is buffered for replay and no transcript entry is ever created for them —
while after linkage every accepted (finalized, non-blank) notification yields
exactly one attempted transcript entry; in the mixed-trace scenario only the
post-linkage utterance appears, with sequence number 1. -/
theorem C6_prelink_notifications_dropped :
    (∀ (s : TranscriptTraceState) (us : List Utterance), s.interviewId = none →
      runTranscript s (us.map SessionEvent.utter) = s) ∧
    (∀ (s : TranscriptTraceState) (r : Nat) (us : List Utterance),
      s.interviewId = some r →
      (runTranscript s (us.map SessionEvent.utter)).attempts.length =
        s.attempts.length + us.countP (utteranceAccepted (some r))) ∧
    (runTranscript ⟨none, 0, []⟩
        [.utter ⟨"CANDIDATE", some ['e', 'a', 'r', 'l', 'y'], true⟩,
          .link 7,
          .utter ⟨"AI", some ['l', 'a', 't', 'e'], true⟩]).attempts = [(7, 1)] := by
  exact ⟨fun s us h => runTranscript_unlinked us s h,
    fun s r us h => runTranscript_linked_attempts us s r h, by decide⟩

/-- Witness for C6: the theorem applied at concrete states, hypotheses
discharged by evaluation. -/
theorem C6_prelink_notifications_dropped_witness :
    runTranscript ⟨none, 0, []⟩
        [SessionEvent.utter ⟨"CANDIDATE", some ['h', 'i'], true⟩] =
      (⟨none, 0, []⟩ : TranscriptTraceState) ∧
    (runTranscript ⟨some 3, 0, []⟩
        [SessionEvent.utter ⟨"CANDIDATE", some ['h', 'i'], true⟩]).attempts.length =
      0 + [(⟨"CANDIDATE", some ['h', 'i'], true⟩ : Utterance)].countP
        (utteranceAccepted (some 3)) :=
  ⟨C6_prelink_notifications_dropped.1 ⟨none, 0, []⟩
      [⟨"CANDIDATE", some ['h', 'i'], true⟩] rfl,
    C6_prelink_notifications_dropped.2.1 ⟨some 3, 0, []⟩ 3
      [⟨"CANDIDATE", some ['h', 'i'], true⟩] rfl⟩

/-- A durable interview record held by the backend of record. -/
structure InterviewRecord where
  id : Nat
  roomId : Chars
  recordingUrl : String
  applicationId : Chars
deriving DecidableEq

/-- Modelled from the spec: the store of records behind the ExternalRecordGateway.
`createRecordWithMedia(roomId, mediaUrl, jobId) → recordId` creates a fresh
record and returns its id (spec section 6); ids are assigned from a
counter. -/
structure Gateway where
  records : List InterviewRecord
  nextId : Nat
deriving DecidableEq

/-- From `graphql_client.py`, `create_interview_with_video`: issue the
`CreateInterview` mutation, which creates a new record whose applicationId is
the result of the extractor, and return the id of the new record. -/
def create_interview_with_video (g : Gateway) (room_id : Chars)
    (video_url : String) : Gateway × Nat :=
  ({ records := g.records ++
        [{ id := g.nextId
           roomId := room_id
           recordingUrl := video_url
           applicationId := extract_interview_id_from_room_name room_id }]
     nextId := g.nextId + 1 },
    g.nextId)

/-- From `graphql_client.py`, `save_video_url_to_interview` (lines 230-241): it
performs no lookup of an existing record for the room — it directly creates a
new interview record. -/
def save_video_url_to_interview (g : Gateway) (room_id : Chars)
    (video_url : String) : Gateway × Nat :=
  create_interview_with_video g room_id video_url

/-- The records registered for one room. -/
def recordsForRoom (g : Gateway) (room_id : Chars) : List InterviewRecord :=
  g.records.filter (fun r => r.roomId = room_id)

/-- Claim C3, amended: `save` is not idempotent registration — it never looks
up an existing record and always creates a fresh one, so two calls for the
same room return two distinct record ids and leave two more records for that
room in the store. -/
theorem C3_save_always_creates :
    ∀ (g : Gateway) (room : Chars) (url1 url2 : String),
      ((save_video_url_to_interview g room url1).1.records.length =
        g.records.length + 1) ∧
      ((save_video_url_to_interview
          (save_video_url_to_interview g room url1).1 room url2).1.records.length =
        g.records.length + 2) ∧
      ((save_video_url_to_interview g room url1).2 ≠
        (save_video_url_to_interview
          (save_video_url_to_interview g room url1).1 room url2).2) ∧
      ((recordsForRoom (save_video_url_to_interview
          (save_video_url_to_interview g room url1).1 room url2).1 room).length =
        (recordsForRoom g room).length + 2) := by
  intro g room url1 url2
  refine ⟨by simp [save_video_url_to_interview, create_interview_with_video],
    by simp [save_video_url_to_interview, create_interview_with_video],
    by simp [save_video_url_to_interview, create_interview_with_video],
    ?_⟩
  simp [save_video_url_to_interview, create_interview_with_video, recordsForRoom]

/-- Counterexample to C3 as stated: starting from a gateway that already holds
a record for the room, a second `save` call returns a different record id and
a second record for the room exists afterwards. -/
theorem C3_counterexample :
    (save_video_url_to_interview
        ⟨[{ id := 0
            roomId := "not-an-interview-room".toList
            recordingUrl := "u0"
            applicationId := "not-an-interview-room".toList }], 1⟩
        "not-an-interview-room".toList "u1").2 ≠ 0 ∧
    (recordsForRoom
        (save_video_url_to_interview
          ⟨[{ id := 0
              roomId := "not-an-interview-room".toList
              recordingUrl := "u0"
              applicationId := "not-an-interview-room".toList }], 1⟩
          "not-an-interview-room".toList "u1").1
        "not-an-interview-room".toList).length = 2 := by
  constructor
  · decide
  · decide

/-- The identity variables of the entrypoint after setup (`agent.py` lines
85-102): `interview_id` is the result of the initial `save_video_to_backend`
attempt, and `thread_id = interview_id if interview_id else session_id`,
computed exactly once. -/
structure SessionVars where
  session_id : String
  interview_id : Option String
  thread_id : String
deriving DecidableEq

/-- Session setup: run the initial save attempt (its result passed in as
`saveResult`) and fix `thread_id`. -/
def entrySetup (sessionId : String) (saveResult : Option String) : SessionVars :=
  { session_id := sessionId
    interview_id := saveResult
    thread_id := saveResult.getD sessionId }

/-- From `cleanup` (`agent.py` lines 236-255): the backup save runs only when the
initial save failed; on success it updates `interview_id` — and nothing
else.  `thread_id` is never reassigned. -/
def cleanupBackup (v : SessionVars) (backupResult : Option String) : SessionVars :=
  match v.interview_id with
  | some _ => v
  | none => { v with interview_id := backupResult }

/-- Claim C7, amended: `thread_id` is fixed once at session start — the
gateway-assigned record id when the initial save succeeds, else the local
session id — and is never changed afterwards; in particular a successful
teardown backup save updates the linkage (`interview_id`) but never replaces
`thread_id`, so a session whose initial save failed keeps `thread_id =
session_id` even after linkage succeeds at teardown. -/
theorem C7_thread_id_fixed_at_setup :
    ∀ (sessionId : String) (saveResult backupResult : Option String),
      (entrySetup sessionId saveResult).thread_id = saveResult.getD sessionId ∧
      (cleanupBackup (entrySetup sessionId saveResult) backupResult).thread_id =
        (entrySetup sessionId saveResult).thread_id ∧
      (cleanupBackup (entrySetup sessionId saveResult) backupResult).session_id =
        sessionId ∧
      (cleanupBackup (entrySetup sessionId saveResult) backupResult).interview_id =
        (match saveResult with
          | some r => some r
          | none => backupResult) := by
  intro sessionId saveResult backupResult
  cases saveResult <;> simp [entrySetup, cleanupBackup]

/-- Counterexample to C7 as stated: initial save fails, the teardown backup
succeeds with record id `"rec-1"` — linkage succeeds at the backup attempt,
yet `thread_id` remains the session id and is never replaced by the external
record id. -/
theorem C7_counterexample :
    (cleanupBackup (entrySetup "session-0" none) (some "rec-1")).interview_id =
      some "rec-1" ∧
    (cleanupBackup (entrySetup "session-0" none) (some "rec-1")).thread_id =
      "session-0" ∧
    (cleanupBackup (entrySetup "session-0" none) (some "rec-1")).thread_id ≠
      "rec-1" := by
  refine ⟨rfl, rfl, ?_⟩
  decide

/-- The outcome of the bounded `start_recording` attempt (`agent.py` lines
72-82): the awaited call either returns an `Optional[str]`, or raises — the
`except Exception` arm also covers `asyncio.TimeoutError` from the 10-second
`wait_for` budget. -/
inductive CaptureOutcome where
  | returned (url : Option String)
  | raised
deriving DecidableEq

/-- From `agent.py` line 69: the fallback URL computed unconditionally before the
capture attempt, deterministically from bucket, region, session id and
timestamp. -/
def fallback_video_url (bucket region sessionId timestamp : String) : String :=
  "https://" ++ bucket ++ ".s3." ++ region ++ ".amazonaws.com/interviews/" ++
    sessionId ++ "/" ++ timestamp ++ "/recording.mp4"

/-- From `agent.py` lines 72-82: `video_url_to_save` keeps the fallback unless the
capture attempt returned a truthy URL. -/
def video_url_to_save (fallback : String) (outcome : CaptureOutcome) : String :=
  match outcome with
  | .returned (some url) => if url = "" then fallback else url
  | .returned none => fallback
  | .raised => fallback

theorem fallback_video_url_ne_empty (bucket region sessionId timestamp : String) :
    fallback_video_url bucket region sessionId timestamp ≠ "" := by
  intro h
  have hlen := congrArg String.length h
  simp only [fallback_video_url, String.length_append] at hlen
  have h8 : "https://".length = 8 := rfl
  have h0 : ("" : String).length = 0 := rfl
  omega

/-- Claim C8: for every outcome of the capture-start attempt — a returned
URL, a missing URL, or a raised error (including exceeding the timeout
budget) — recording setup yields a non-empty URL: the fallback URL is a fixed
function of bucket, region, session id and timestamp and is used whenever
capture did not return a truthy URL, the capture URL is preferred when it
did, and the session proceeds (the outcome always produces a value, never a
propagated failure). -/
theorem C8_recording_url_always_resolvable :
    ∀ (bucket region sessionId timestamp : String) (outcome : CaptureOutcome),
      (video_url_to_save (fallback_video_url bucket region sessionId timestamp)
          outcome ≠ "") ∧
      (video_url_to_save (fallback_video_url bucket region sessionId timestamp)
          CaptureOutcome.raised =
        fallback_video_url bucket region sessionId timestamp) ∧
      (video_url_to_save (fallback_video_url bucket region sessionId timestamp)
          (CaptureOutcome.returned none) =
        fallback_video_url bucket region sessionId timestamp) ∧
      (∀ url : String,
        video_url_to_save (fallback_video_url bucket region sessionId timestamp)
            (CaptureOutcome.returned (some url)) =
          if url = "" then fallback_video_url bucket region sessionId timestamp
          else url) := by
  intro bucket region sessionId timestamp outcome
  refine ⟨?_, rfl, rfl, fun url => rfl⟩
  match outcome with
  | .returned (some url) =>
    by_cases h : url = ""
    · simpa [video_url_to_save, h] using
        fallback_video_url_ne_empty bucket region sessionId timestamp
    · simp only [video_url_to_save, h, if_false]
      exact h
  | .returned none =>
    exact fallback_video_url_ne_empty bucket region sessionId timestamp
  | .raised =>
    exact fallback_video_url_ne_empty bucket region sessionId timestamp

/-- Outcome of a ConversationStateStore commit attempt. -/
inductive CommitResult where
  | acknowledged
  | failed
deriving DecidableEq

/-- What the entrypoint does after the initial `aupdate_state` commit
attempt. -/
structure EntrySetupOutcome where
  sessionStarted : Bool
  failureSurfaced : Bool
deriving DecidableEq

/-- From `agent.py` lines 122-127: the initial state commit is wrapped in
`try/except`; on failure a warning is logged, nothing is raised, and the
entrypoint goes on to register the event handlers and start the session in
both branches. -/
def initializeGraphState (r : CommitResult) : EntrySetupOutcome :=
  match r with
  | .acknowledged => { sessionStarted := true, failureSurfaced := false }
  | .failed => { sessionStarted := true, failureSurfaced := false }

/-- Whether `handle_conversation_item` attempts the transcript side effect for
a turn.  The closure (`agent.py` lines 153-180) reads only `interview_id` and
the event item; no commit acknowledgment is consulted anywhere — the
`commit` parameter is shown explicitly to state that independence. -/
def turnSideEffectAttempted (_commit : CommitResult) (interviewId : Option Nat)
    (u : Utterance) : Bool :=
  utteranceAccepted interviewId u

/-- Claim C2, amended: the code enforces no commit-before-side-effect
ordering — the transcript side effect for a turn is attempted precisely when
an external record id is linked and the item text is non-blank, independently
of any commit outcome; and a failed state commit is caught and logged, the
session still starts, and no turn-level error is surfaced. -/
theorem C2_side_effects_independent_of_commit :
    (∀ r : CommitResult, (initializeGraphState r).sessionStarted = true ∧
      (initializeGraphState r).failureSurfaced = false) ∧
    (∀ (r r' : CommitResult) (interviewId : Option Nat) (u : Utterance),
      turnSideEffectAttempted r interviewId u =
        turnSideEffectAttempted r' interviewId u) ∧
    (∀ (r : CommitResult) (interviewId : Option Nat) (u : Utterance),
      turnSideEffectAttempted r interviewId u = utteranceAccepted interviewId u) := by
  refine ⟨fun r => ?_, fun r r' i u => rfl, fun r i u => rfl⟩
  cases r <;> exact ⟨rfl, rfl⟩

/-- Counterexample to C2 as stated: with a failed commit the session still
proceeds, no turn-level error is surfaced, and the transcript side effect for
a linked, non-blank utterance is still attempted. -/
theorem C2_counterexample :
    (initializeGraphState .failed).sessionStarted = true ∧
    (initializeGraphState .failed).failureSurfaced = false ∧
    turnSideEffectAttempted .failed (some 5) ⟨"AI", some ['h', 'i'], true⟩ = true := by
  exact ⟨rfl, rfl, by decide⟩

/-- Python `str.lower()` (ASCII behaviour). -/
def pyLower (s : String) : String := String.mk (s.data.map Char.toLower)

/-- Python `str.strip()` on strings. -/
def pyStripStr (s : String) : String := String.mk (stripChars s.data)

/-- Helper for Python `str.title()`: the flag says whether the previous
character was alphabetic. -/
def pyTitleGo : Bool → List Char → List Char
  | _, [] => []
  | prevAlpha, c :: cs =>
    if c.isAlpha then
      (if prevAlpha then c.toLower else c.toUpper) :: pyTitleGo true cs
    else c :: pyTitleGo false cs

/-- Python `str.title()` (ASCII behaviour). -/
def pyTitle (s : String) : String := String.mk (pyTitleGo false s.data)

/-- Python `a or b` on optional numbers: `None` and `0` are falsy. -/
def orNat (a b : Option Nat) : Option Nat :=
  match a with
  | some n => if n = 0 then b else a
  | none => b

/-- Truthiness of a `cvAnalysisResults` value: a (non-empty) dict is truthy, a
raw string is truthy when non-empty. -/
def cvTruthy : CvAnalysisValue → Bool
  | .obj _ => true
  | .raw s => s ≠ ""

/-- Python `a or b` on optional `cvAnalysisResults` values. -/
def orCv (a b : Option CvAnalysisValue) : Option CvAnalysisValue :=
  match a with
  | some v => if cvTruthy v then a else b
  | none => b

/-- Python `str(x)` of an optional string for f-string interpolation: `None`
renders as `"None"`. -/
def optToStr : Option String → String
  | none => "None"
  | some s => s

/-- The fallback system prompt (`assistant_node.py` line 18). -/
def defaultFallbackPrompt : String := "You are a helpful AI assistant."

/-- The Arabic language-enforcement directive appended to a provided
interview prompt. -/
def arabicDirective : String :=
  "\n\nIMPORTANT: You must conduct this interview entirely in Arabic. Speak, ask questions, and respond only in Arabic."

/-- The English language-enforcement directive appended to a provided
interview prompt. -/
def englishDirective : String :=
  "\n\nIMPORTANT: You must conduct this interview entirely in English."

/-- The generic English interviewer prompt (`assistant_node.py` lines 85-87). -/
def englishGeneric (company_name : String) : String :=
  "You are a professional interviewer at " ++ company_name ++
    ". \nConduct a thorough and engaging interview to assess the candidate\x27s qualifications, \nskills, and cultural fit for the position. Be professional, direct, and insightful."

/-- The generic Arabic interviewer prompt (`assistant_node.py` lines 82-83). -/
def arabicGeneric (company_name : String) : String :=
  "أنت مُقابل مهني في " ++ company_name ++
    ". \nقم بإجراء مقابلة شاملة وجذابة لتقييم مؤهلات المرشح ومهاراته وملاءمته الثقافية للمنصب. كن محترفاً ومباشراً وثاقب النظر."

/-- One guarded string part of the CV summary: included when the attribute is
present and truthy. -/
def strPart (label : String) (f : JField String) : List String :=
  match f.getOpt with
  | some s => if s = "" then [] else [label ++ s]
  | none => []

/-- One guarded, bounded list part of the CV summary: included when the
attribute is a present, non-empty list; at most `k` items are joined. -/
def listPart (label sep : String) (k : Nat) (f : JField (List String)) :
    List String :=
  match f.getOpt with
  | some l => if l = [] then [] else [label ++ String.intercalate sep (l.take k)]
  | none => []

/-- The `Overall Recommendation` part, title-cased when present and truthy. -/
def titlePart (f : JField String) : List String :=
  match f.getOpt with
  | some s => if s = "" then [] else ["Overall Recommendation: " ++ pyTitle s]
  | none => []

/-- The CV-score part (`assistant_node.py` lines 28-33): the `or` chain over
the three score keys, kept when the result is not `None`. -/
def scoreParts (ad : ApplicationDetails) : List String :=
  match orNat ad.cvScore.getOpt (orNat ad.cv_score.getOpt ad.cvAnalysisScore.getOpt) with
  | some n => ["CV Match Score: " ++ toString n ++ "/100"]
  | none => []

/-- The structured CV-analysis parts (`assistant_node.py` lines 35-64), with
the documented top-k bounds 8/6/4/4; a non-dict truthy value falls back to a
single truncated `CV Analysis` line. -/
def analysisParts : Option CvAnalysisValue → List String
  | some (.obj r) =>
    strPart "Experience Summary: " r.experience_summary ++
      listPart "Matching Skills: " ", " 8 r.skills_matched ++
      listPart "Missing Skills: " ", " 6 r.skills_missing ++
      listPart "Key Strengths: " "; " 4 r.strengths ++
      listPart "Areas of Concern: " "; " 4 r.concerns ++
      titlePart r.recommendation
  | some (.raw s) => if s = "" then [] else ["CV Analysis: " ++ s.take 600]
  | none => []

/-- The assembled CV summary (`assistant_node.py` line 66). -/
def cvSummary (ad : ApplicationDetails) : String :=
  String.intercalate "\n"
    (scoreParts ad ++
      analysisParts (orCv ad.cvAnalysisResults.getOpt ad.cv_analysis_results.getOpt))

/-- Prepend the CV summary when non-empty (`assistant_node.py` lines 90-91). -/
def withCvSummary (cv_summary sp : String) : String :=
  if cv_summary = "" then sp
  else "Candidate CV summary:\n" ++ cv_summary ++ "\n\n" ++ sp

/-- Append the language-enforcement directive to a provided prompt
(`assistant_node.py` lines 74-78). -/
def languageSuffix (interview_language base : String) : String :=
  if interview_language = "arabic" then base ++ arabicDirective
  else base ++ englishDirective

/-- Pick the generic prompt by language (`assistant_node.py` lines 80-87);
a `None` company name is interpolated as the text `"None"`. -/
def genericPrompt (interview_language : String) (company_name : Option String) :
    String :=
  if interview_language = "arabic" then arabicGeneric (optToStr company_name)
  else englishGeneric (optToStr company_name)

/-- The prompt branch once a job dict is in hand (`assistant_node.py` lines
68-91): a present, non-blank `interviewPrompt` has its company placeholder
substituted — raising `TypeError` when the company name is Python `None` —
otherwise the generic template is used; the CV summary is prepended either
way. -/
def promptWithJob (ad : ApplicationDetails) (jd : JobDetails)
    (interview_language : String) (company_name : Option String) :
    Except String String :=
  let cv_summary := cvSummary ad
  match jd.interviewPrompt.getOpt with
  | some ip =>
    if (ip != "") && (pyStripStr ip != "") then
      match company_name with
      | none => .error "TypeError: replace argument 2 must be str"
      | some cn =>
        .ok (withCvSummary cv_summary
          (languageSuffix interview_language (ip.replace "\x7bcompany_name\x7d" cn)))
    else .ok (withCvSummary cv_summary (genericPrompt interview_language company_name))
  | none => .ok (withCvSummary cv_summary (genericPrompt interview_language company_name))

/-- From `nodes/assistant_node.py`, `call_llm` lines 16-91: the per-turn system
prompt assembly.  `Except.error` marks a raised Python exception:
`job_details.get("interviewLanguage", "english")` yields `None` for a
null-valued key and `.lower()` then raises, and
`job_details.get("company", \x7b\x7d)` yields `None` for a null-valued key
and `.get("name", ...)` then raises. -/
def assembleSystemPrompt (application_details : Option ApplicationDetails) :
    Except String String :=
  match application_details with
  | none => .ok defaultFallbackPrompt
  | some ad =>
    match ad.job.getOpt with
    | none => .ok defaultFallbackPrompt
    | some jd =>
      match jd.interviewLanguage.get "english" with
      | none => .error "AttributeError: NoneType has no attribute lower"
      | some langRaw =>
        match jd.company.get { name := JField.absent } with
        | none => .error "AttributeError: NoneType has no attribute get"
        | some comp =>
          promptWithJob ad jd (pyLower langRaw) (comp.name.get "the company")

/-- A well-formed application context: no null-valued `interviewLanguage`,
`company`, or `company.name` key (absent keys are fine — these are the spots
where `dict.get` defaults do not protect against GraphQL nulls). -/
def contextWellFormedB (a : ApplicationDetails) : Bool :=
  match a.job with
  | .val jd =>
    (match jd.interviewLanguage with
      | .null => false
      | _ => true) &&
    (match jd.company with
      | .null => false
      | .val c =>
        match c.name with
        | .null => false
        | _ => true
      | .absent => true)
  | _ => true

/-- A context whose job dict exists but carries no usable attributes. -/
def emptyJobContext : ApplicationDetails :=
  { job := .val { interviewLanguage := .absent, company := .absent, interviewPrompt := .absent }
    cvScore := .absent
    cv_score := .absent
    cvAnalysisScore := .absent
    cvAnalysisResults := .absent
    cv_analysis_results := .absent }

/-- A context whose job dict carries a null-valued `interviewLanguage` key,
as a GraphQL response would for a null field. -/
def nullLanguageContext : ApplicationDetails :=
  { job := .val { interviewLanguage := .null, company := .absent, interviewPrompt := .absent }
    cvScore := .absent
    cv_score := .absent
    cvAnalysisScore := .absent
    cvAnalysisResults := .absent
    cv_analysis_results := .absent }

/-- Whether an `Except` result is a success (the assembly did not raise). -/
def exceptOk {ε α : Type} : Except ε α → Bool
  | .ok _ => true
  | .error _ => false

instance instDecEqExcept {ε α : Type} [DecidableEq ε] [DecidableEq α] :
    DecidableEq (Except ε α) := fun x y =>
  match x, y with
  | .ok a, .ok b =>
    if h : a = b then isTrue (by rw [h])
    else isFalse (by intro hh; cases hh; exact h rfl)
  | .error a, .error b =>
    if h : a = b then isTrue (by rw [h])
    else isFalse (by intro hh; cases hh; exact h rfl)
  | .ok a, .error b => isFalse (by intro hh; cases hh)
  | .error a, .ok b => isFalse (by intro hh; cases hh)

theorem promptWithJob_isOk (ad : ApplicationDetails) (jd : JobDetails)
    (interview_language cn : String) :
    exceptOk (promptWithJob ad jd interview_language (some cn)) = true := by
  unfold promptWithJob
  cases h : jd.interviewPrompt.getOpt with
  | none => rfl
  | some ip =>
    by_cases hip : ((ip != "") && (pyStripStr ip != "")) = true
    · simp [hip, exceptOk]
    · simp only [Bool.not_eq_true] at hip
      simp [hip, exceptOk]

/-- Claim C9, amended: the per-turn system-context assembly never raises and
resolves absent attributes to neutral defaults — for every context whose
`interviewLanguage`, `company`, and `company.name` keys are not null-valued:
a missing context, a missing or null job entry, and absent nested attributes
all yield the documented defaults (`"You are a helpful AI assistant."`,
company `"the company"`, language `"english"`).  (The original unconditional
claim fails: a null-valued `interviewLanguage` key makes the assembly
raise.) -/
theorem C9_missing_context_defaults :
    (∀ ad : Option ApplicationDetails,
      ad.all contextWellFormedB = true →
      exceptOk (assembleSystemPrompt ad) = true) ∧
    assembleSystemPrompt none = .ok defaultFallbackPrompt ∧
    (∀ a : ApplicationDetails, a.job = JField.absent →
      assembleSystemPrompt (some a) = .ok defaultFallbackPrompt) ∧
    (∀ a : ApplicationDetails, a.job = JField.null →
      assembleSystemPrompt (some a) = .ok defaultFallbackPrompt) ∧
    assembleSystemPrompt (some emptyJobContext) = .ok (englishGeneric "the company") := by
  refine ⟨?_, rfl, ?_, ?_, by decide⟩
  · intro ad h
    cases ad with
    | none => rfl
    | some a =>
      simp only [Option.all_some] at h
      obtain ⟨job, c1, c2, c3, c4, c5⟩ := a
      cases job with
      | absent => rfl
      | null => rfl
      | val jd =>
        obtain ⟨lang, comp, iprompt⟩ := jd
        cases lang with
        | null => exact absurd h (by simp [contextWellFormedB])
        | absent =>
          cases comp with
          | null => exact absurd h (by simp [contextWellFormedB])
          | absent => exact promptWithJob_isOk _ _ _ _
          | val c =>
            obtain ⟨nm⟩ := c
            cases nm with
            | null => exact absurd h (by simp [contextWellFormedB])
            | absent => exact promptWithJob_isOk _ _ _ _
            | val s => exact promptWithJob_isOk _ _ _ _
        | val langRaw =>
          cases comp with
          | null => exact absurd h (by simp [contextWellFormedB])
          | absent => exact promptWithJob_isOk _ _ _ _
          | val c =>
            obtain ⟨nm⟩ := c
            cases nm with
            | null => exact absurd h (by simp [contextWellFormedB])
            | absent => exact promptWithJob_isOk _ _ _ _
            | val s => exact promptWithJob_isOk _ _ _ _
  · intro a hj
    obtain ⟨job, c1, c2, c3, c4, c5⟩ := a
    cases hj
    rfl
  · intro a hj
    obtain ⟨job, c1, c2, c3, c4, c5⟩ := a
    cases hj
    rfl

/-- Witness for C9: the amended theorem applied at the concrete all-absent
job context, the well-formedness hypothesis discharged by evaluation. -/
theorem C9_missing_context_defaults_witness :
    exceptOk (assembleSystemPrompt (some emptyJobContext)) = true ∧
    assembleSystemPrompt (some { emptyJobContext with job := JField.absent }) =
      .ok defaultFallbackPrompt :=
  ⟨C9_missing_context_defaults.1 (some emptyJobContext) (by decide),
    C9_missing_context_defaults.2.2.1 _ rfl⟩

/-- Counterexample to C9 as stated: a context with a null-valued
`interviewLanguage` key (a missing optional attribute as GraphQL delivers it)
makes the assembly raise `AttributeError` instead of resolving to the
`"english"` default. -/
theorem C9_counterexample :
    assembleSystemPrompt (some nullLanguageContext) =
      .error "AttributeError: NoneType has no attribute lower" := by
  decide

end Rolevate
